import Mathlib

/-!
Verification of the NSM driver communication layer (`src/driver/mod.rs`)
and the library facade (`src/lib.rs`).

The request/response schema (`crate::api`) and the CBOR codec
(`serde_cbor`) are external collaborators of the code under verification;
they are modelled from the specification where noted.  The kernel side of
the privileged `ioctl` call is likewise external and enters the
development as an explicit parameter, so that theorems quantify over every
possible kernel behavior and stubs instantiate it for concrete scenarios.
Byte sequences are modelled as `List Nat` and file descriptors and status
codes as `Int`.
-/

namespace Api

/-- Modelled from the spec: the module-reported error-code enumeration of
the external schema (`api::ErrorCode`) is opaque to this layer; it is
modelled as a bare numeric code. -/
abbrev ErrorCode := Nat

/-- Modelled from the spec: the external schema's `Request`, a tagged value
representing one operation.  Only "generate random bytes" is exercised by
this layer's high-level operations; every other variant of the external
schema is abstracted into a single tagged constructor. -/
inductive Request where
  | GetRandom : Request
  | Other (tag : Nat) : Request
deriving DecidableEq

/-- Modelled from the spec: the external schema's `Response`, a tagged
value carrying either an operation-specific success payload (the random
bytes), the module-reported error tag with its code, or some other tag of
the schema. -/
inductive Response where
  | GetRandom (random : List Nat) : Response
  | Error (code : ErrorCode) : Response
  | Other (tag : Nat) : Response
deriving DecidableEq

end Api

/-- Little-endian base-256 digits of a number, with explicit fuel so that
the definition is structurally recursive and kernel-reducible. -/
def digitsGo : Nat → Nat → List Nat
  | _, 0 => []
  | 0, _ + 1 => []
  | fuel + 1, n + 1 => (n + 1) % 256 :: digitsGo fuel ((n + 1) / 256)

/-- Little-endian base-256 digits of a number. -/
def digits256 (n : Nat) : List Nat := digitsGo n n

/-- Value of a little-endian base-256 digit string. -/
def valueOfDigits : List Nat → Nat
  | [] => 0
  | d :: ds => d + 256 * valueOfDigits ds

/-- Modelled from the spec: a self-delimited numeric field of the binary
format — a digit count followed by that many base-256 digits. -/
def encNat (n : Nat) : List Nat := (digits256 n).length :: digits256 n

/-- Modelled from the spec: decode a self-delimited numeric field from the
front of a byte sequence, returning its value and the remaining bytes;
fails on a truncated field. -/
def decNat : List Nat → Option (Nat × List Nat)
  | [] => none
  | k :: rest =>
    if k ≤ rest.length then some (valueOfDigits (rest.take k), rest.drop k)
    else none

/-- Modelled from the spec: errors of the external CBOR codec (malformed
or truncated input). -/
inductive CborError where
  | malformed : CborError
deriving DecidableEq

/-- Modelled from the spec: the interface of the external CBOR codec
collaborator (`serde_cbor` applied to the external schema): serialize a
`Request` to bytes, deserialize a `Response` from bytes. -/
structure CborCodec where
  to_vec : Api.Request → Except CborError (List Nat)
  from_slice : List Nat → Except CborError Api.Response

/-- Modelled from the spec: the concrete binary image of a `Request` — a
deterministic, self-delimiting tagged encoding. -/
def encodeRequest : Api.Request → List Nat
  | .GetRandom => [1]
  | .Other t => 2 :: encNat t

/-- Modelled from the spec: the concrete binary image of a `Response` — a
deterministic, self-delimiting tagged encoding: a tag byte followed by the
length-delimited payload. -/
def encodeResponse : Api.Response → List Nat
  | .GetRandom random => 1 :: (encNat random.length ++ random)
  | .Error code => 2 :: encNat code
  | .Other t => 3 :: encNat t

/-- Modelled from the spec: deserialization of a `Response` — parse one
self-delimited value from the front of the input and ignore any bytes
after it (the format is self-delimiting, so decoding reads a leading
segment of the buffer and tolerates trailing padding); fail on malformed
or truncated input. -/
def decodeResponse (l : List Nat) : Option Api.Response :=
  match l with
  | [] => none
  | tag :: rest =>
    if tag = 1 then
      match decNat rest with
      | some (len, rest2) =>
        if len ≤ rest2.length then some (.GetRandom (rest2.take len))
        else none
      | none => none
    else if tag = 2 then
      match decNat rest with
      | some (code, _) => some (.Error code)
      | none => none
    else if tag = 3 then
      match decNat rest with
      | some (t, _) => some (.Other t)
      | none => none
    else none

/-- Modelled from the spec: the external codec instance the driver links
against — encoding succeeds on every well-formed `Request`; decoding
parses one leading self-delimited `Response` and reports `malformed`
otherwise. -/
def serde_cbor : CborCodec where
  to_vec request := .ok (encodeRequest request)
  from_slice bytes :=
    match decodeResponse bytes with
    | some response => .ok response
    | none => .error .malformed

namespace Driver

/-- Driver-level error type (`driver::Error`): a transport I/O failure
carrying the platform error code, or a codec failure. -/
inductive Error where
  | Io (errno : Int) : Error
  | Cbor (err : CborError) : Error
deriving DecidableEq

/-- Fixed capacity of the response region (`NSM_RESPONSE_MAX_SIZE`). -/
def NSM_RESPONSE_MAX_SIZE : Nat := 0x3000

/-- Dual input/output descriptor handed to the privileged call
(`NsmMessage`): the request bytes and the caller-owned response region. -/
structure NsmMessage where
  request : List Nat
  response : List Nat
deriving DecidableEq

/-- Raw outcome of the privileged `ioctl` call: the status it returned,
the message as the kernel left it (the kernel may overwrite the response
region in place), and the calling thread's last platform error code
immediately after the call. -/
structure IoctlOutcome where
  status : Int
  message : NsmMessage
  errno : Int

/-- Kernel side of the privileged call, as an explicit parameter: the raw
outcome observed for a given descriptor and message. -/
abbrev KernelModel := Int → NsmMessage → IoctlOutcome

/-- Translation of `nsm_encode_request_to_cbor`: encode a `Request`,
wrapping any codec failure into `Error.Cbor`. -/
def nsm_encode_request_to_cbor (codec : CborCodec) (request : Api.Request) :
    Except Error (List Nat) :=
  (codec.to_vec request).mapError Error.Cbor

/-- Translation of `nsm_decode_response_from_cbor`: decode a `Response`
from a raw memory buffer, wrapping any codec failure into `Error.Cbor`. -/
def nsm_decode_response_from_cbor (codec : CborCodec) (response_data : List Nat) :
    Except Error Api.Response :=
  (codec.from_slice response_data).mapError Error.Cbor

/-- Translation of `nsm_ioctl`: issue the privileged call on a message; a
zero status is success, any other status is a typed I/O error wrapping the
thread's last platform error code.  Returns the driver's verdict together
with the message as updated in place by the kernel. -/
def nsm_ioctl (kernel : KernelModel) (fd : Int) (message : NsmMessage) :
    Except Error Unit × NsmMessage :=
  let out := kernel fd message
  if out.status = 0 then (.ok (), out.message)
  else (.error (.Io out.errno), out.message)

/-- Translation of `nsm_process_request`: encode the request, build the
message with a fresh zero-filled response region of
`NSM_RESPONSE_MAX_SIZE` bytes, issue the privileged call, then decode the
response region. -/
def nsm_process_request (codec : CborCodec) (kernel : KernelModel) (fd : Int)
    (request : Api.Request) : Except Error Api.Response :=
  match nsm_encode_request_to_cbor codec request with
  | .error e => .error e
  | .ok cbor_request =>
    let cbor_response : List Nat := List.replicate NSM_RESPONSE_MAX_SIZE 0
    let message : NsmMessage := ⟨cbor_request, cbor_response⟩
    match nsm_ioctl kernel fd message with
    | (.error e, _) => .error e
    | (.ok _, message2) => nsm_decode_response_from_cbor codec message2.response

/-- Translation of `nsm_exit`: close the device descriptor, wrapping a
close failure into a typed I/O error.  The close system call itself is
external and enters as a parameter; the second component records the
descriptors this function closed (it issues exactly one close). -/
def nsm_exit (close : Int → Except Int Unit) (fd : Int) :
    Except Error Unit × List Int :=
  (match close fd with
   | .error err => .error (.Io err)
   | _ => .ok (), [fd])

/-- Modelled from the spec: the kernel's in-place write into the
caller-owned response region — it stores at most `buf.length` bytes of its
response at the front of the region and leaves the rest of the region as
it was. -/
def kernelWrite (buf : List Nat) (bytes : List Nat) : List Nat :=
  bytes.take buf.length ++ buf.drop bytes.length

/-- Modelled from the spec: a driver stub whose privileged call always
succeeds, answering the request bytes with `behavior` applied to them,
truncated to the capacity of the caller's response region. -/
def stubDriver (behavior : List Nat → List Nat) : KernelModel :=
  fun _ m => ⟨0, ⟨m.request, kernelWrite m.response (behavior m.request)⟩, 0⟩

/-- Modelled from the spec: a driver stub whose privileged call fails with
the given platform error code, leaving the message untouched. -/
def failDriver (errno : Int) : KernelModel :=
  fun _ m => ⟨-1, m, errno⟩

end Driver

namespace Nsm

/-- Facade error type (`Error` in `lib.rs`): transport I/O, codec failure,
module-reported error code, or unexpected response shape. -/
inductive Error where
  | Io (errno : Int) : Error
  | Cbor (err : CborError) : Error
  | NitroSecureModuleError (code : Api.ErrorCode) : Error
  | InvalidReponse : Error
deriving DecidableEq

/-- Translation of `impl From<driver::Error> for Error`: inject a driver
error into the facade error type. -/
def Error.ofDriver : Driver.Error → Error
  | .Io errno => .Io errno
  | .Cbor err => .Cbor err

/-- Translation of `NitroSecureModule::get_random`: dispatch a `GetRandom`
request through the driver and branch on the decoded response's tag. -/
def get_random (codec : CborCodec) (kernel : Driver.KernelModel) (fd : Int) :
    Except Error (List Nat) :=
  match Driver.nsm_process_request codec kernel fd Api.Request.GetRandom with
  | .error e => .error (Error.ofDriver e)
  | .ok response =>
    match response with
    | .GetRandom random => .ok random
    | .Error err_code => .error (.NitroSecureModuleError err_code)
    | _ => .error .InvalidReponse

/-- Rust's `unwrap_or_default` as used by the destructor: keep a success
value, replace any error by the default value. -/
def unwrapOrDefault [Inhabited α] : Except ε α → α
  | .ok a => a
  | .error _ => default

/-- Translation of `impl Drop for NitroSecureModule`: run `nsm_exit` on
the owned descriptor and deliberately discard its verdict
(`unwrap_or_default`).  The second component is the list of descriptors
closed. -/
def drop (close : Int → Except Int Unit) (fd : Int) : Unit × List Int :=
  let out := Driver.nsm_exit close fd
  (unwrapOrDefault out.1, out.2)

/-- Modelled from the spec: the facade's scope — the body (here
`get_random`) runs first, then the destructor runs when the scope ends
whatever the body's outcome (Rust `Drop` semantics, every exit path).
Returns the body's result together with the list of descriptors closed
during the whole scope; `get_random` issues no close, so the scope's close
trace is the destructor's. -/
def facadeScope (codec : CborCodec) (kernel : Driver.KernelModel)
    (close : Int → Except Int Unit) (fd : Int) :
    Except Error (List Nat) × List Int :=
  let result := get_random codec kernel fd
  let dropped := drop close fd
  (result, dropped.2)

end Nsm

/-- Modelled from the spec: a codec stub whose encoder and decoder always
fail, used to exhibit the encode-failure path of the dispatcher. -/
def failCodec : CborCodec where
  to_vec _ := .error .malformed
  from_slice _ := .error .malformed

/-- Modelled from the spec: a close system call stub that fails with the
given platform error code. -/
def failClose (errno : Int) : Int → Except Int Unit :=
  fun _ => .error errno

/-- Modelled from the spec: a close system call stub that succeeds. -/
def okClose : Int → Except Int Unit :=
  fun _ => .ok ()

/-- Fuel-indexed digits evaluate back to the encoded number. -/
theorem valueOfDigits_digitsGo :
    ∀ fuel n, n ≤ fuel → valueOfDigits (digitsGo fuel n) = n := by
  intro fuel
  induction fuel with
  | zero =>
    intro n hn
    have hz : n = 0 := Nat.le_zero.mp hn
    subst hz
    simp [digitsGo, valueOfDigits]
  | succ fuel ih =>
    intro n hn
    match n with
    | 0 => simp [digitsGo, valueOfDigits]
    | m + 1 =>
      have hdiv : (m + 1) / 256 ≤ fuel := by
        have hlt := Nat.div_lt_self (Nat.succ_pos m) (by omega : 1 < 256)
        omega
      simp only [digitsGo, valueOfDigits, ih _ hdiv]
      omega

/-- Digit strings round-trip through their value. -/
theorem valueOfDigits_digits256 (n : Nat) : valueOfDigits (digits256 n) = n :=
  valueOfDigits_digitsGo n n le_rfl

/-- Decoding a self-delimited numeric field consumes exactly the field and
returns the remaining bytes. -/
theorem decNat_encNat (n : Nat) (t : List Nat) :
    decNat (encNat n ++ t) = some (n, t) := by
  have h1 : (digits256 n).length ≤ (digits256 n ++ t).length := by
    simp
  simp [encNat, decNat, h1, List.take_left, List.drop_left,
    valueOfDigits_digits256]

/-- Decoding reads one self-delimited response from the front of the
buffer and ignores everything after it. -/
theorem decodeResponse_encode_append (r : Api.Response) (t : List Nat) :
    decodeResponse (encodeResponse r ++ t) = some r := by
  cases r with
  | GetRandom random =>
    have hlen : random.length ≤ (random ++ t).length := by simp
    simp [encodeResponse, decodeResponse, List.append_assoc, decNat_encNat,
      hlen, List.take_left]
  | Error code =>
    simp [encodeResponse, decodeResponse, decNat_encNat]
  | Other tag =>
    simp [encodeResponse, decodeResponse, decNat_encNat]

/-- Writing at most the capacity into a zero-filled region of size `n`
yields the bytes followed by the unused zero padding. -/
theorem kernelWrite_replicate (n : Nat) (bytes : List Nat)
    (h : bytes.length ≤ n) :
    Driver.kernelWrite (List.replicate n 0) bytes
      = bytes ++ List.replicate (n - bytes.length) 0 := by
  simp [Driver.kernelWrite, List.take_of_length_le h, List.drop_replicate]

/-- Dispatch through a stub driver that answers with a fixed encodable
response yields exactly that response. -/
theorem nsm_process_request_stub (r : Api.Response) (fd : Int)
    (req : Api.Request)
    (h : (encodeResponse r).length ≤ Driver.NSM_RESPONSE_MAX_SIZE) :
    Driver.nsm_process_request serde_cbor
      (Driver.stubDriver fun _ => encodeResponse r) fd req = .ok r := by
  simp [Driver.nsm_process_request, Driver.nsm_encode_request_to_cbor,
    Driver.nsm_decode_response_from_cbor, Driver.nsm_ioctl,
    Driver.stubDriver, serde_cbor, Except.mapError,
    kernelWrite_replicate _ _ h, decodeResponse_encode_append]

/-- Length of the encoding of a GetRandom response. -/
theorem length_encodeResponse_getRandom (payload : List Nat) :
    (encodeResponse (Api.Response.GetRandom payload)).length
      = 2 + (digits256 payload.length).length + payload.length := by
  simp only [encodeResponse, encNat, List.cons_append, List.length_cons,
    List.length_append]
  omega

/-- Truncating the encoding of any response that exceeds a capacity of at
least two bytes leaves a buffer that fails to decode: either its length
field is itself truncated, or the payload it announces is longer than
what remains. -/
theorem decodeResponse_take_oversized (r : Api.Response) (m : Nat)
    (h : m + 2 < (encodeResponse r).length) :
    decodeResponse ((encodeResponse r).take (m + 2)) = none := by
  cases r with
  | GetRandom payload =>
    have henc : encodeResponse (Api.Response.GetRandom payload)
        = 1 :: (digits256 payload.length).length
            :: (digits256 payload.length ++ payload) := by
      simp [encodeResponse, encNat]
    rw [henc] at h ⊢
    rw [List.take_succ_cons, List.take_succ_cons]
    set ds := digits256 payload.length with hds
    set X := (ds ++ payload).take m with hX
    have hlen : m < ds.length + payload.length := by
      simp only [List.length_cons, List.length_append] at h
      omega
    have hXlen : X.length = m := by
      rw [hX, List.length_take, List.length_append]
      omega
    by_cases hB : ds.length ≤ m
    · have htake : X.take ds.length = ds := by
        rw [hX, List.take_take]
        have hmin : min ds.length m = ds.length := by omega
        rw [hmin]
        exact List.take_left ds payload
      have h1 : decNat (ds.length :: X)
          = some (payload.length, X.drop ds.length) := by
        simp only [decNat]
        rw [if_pos (by omega : ds.length ≤ X.length), htake, hds,
          valueOfDigits_digits256]
      have h2 : (X.drop ds.length).length = m - ds.length := by
        rw [List.length_drop, hXlen]
      simp only [decodeResponse, h1, if_pos rfl]
      rw [if_neg (by omega : ¬ payload.length ≤ (X.drop ds.length).length)]
      simp
    · have h1 : decNat (ds.length :: X) = none := by
        simp only [decNat]
        rw [if_neg (by omega : ¬ ds.length ≤ X.length)]
      simp only [decodeResponse, h1, if_pos rfl]
      simp
  | Error code =>
    have henc : encodeResponse (Api.Response.Error code)
        = 2 :: (digits256 code).length :: digits256 code := by
      simp [encodeResponse, encNat]
    rw [henc] at h ⊢
    rw [List.take_succ_cons, List.take_succ_cons]
    have hlen : m < (digits256 code).length := by
      simp only [List.length_cons] at h
      omega
    have hc : ¬ (digits256 code).length
        ≤ ((digits256 code).take m).length := by
      rw [List.length_take]
      omega
    have h1 : decNat ((digits256 code).length :: (digits256 code).take m)
        = none := by
      simp only [decNat]
      rw [if_neg hc]
    simp only [decodeResponse, h1]
    simp
  | Other t =>
    have henc : encodeResponse (Api.Response.Other t)
        = 3 :: (digits256 t).length :: digits256 t := by
      simp [encodeResponse, encNat]
    rw [henc] at h ⊢
    rw [List.take_succ_cons, List.take_succ_cons]
    have hlen : m < (digits256 t).length := by
      simp only [List.length_cons] at h
      omega
    have hc : ¬ (digits256 t).length ≤ ((digits256 t).take m).length := by
      rw [List.length_take]
      omega
    have h1 : decNat ((digits256 t).length :: (digits256 t).take m)
        = none := by
      simp only [decNat]
      rw [if_neg hc]
    simp only [decodeResponse, h1]
    simp

/-- Dispatch through a stub whose response encoding exceeds the fixed
capacity — whatever the response's tag — surfaces as the ordinary codec
error: the kernel writes only the capacity-bounded leading segment and
decoding then rejects it. -/
theorem process_oversized (r : Api.Response) (fd : Int) (req : Api.Request)
    (h : Driver.NSM_RESPONSE_MAX_SIZE < (encodeResponse r).length) :
    Driver.nsm_process_request serde_cbor
        (Driver.stubDriver fun _ => encodeResponse r) fd req
      = .error (.Cbor .malformed) := by
  have h0 : Driver.NSM_RESPONSE_MAX_SIZE - (encodeResponse r).length = 0 := by
    omega
  have hkw : Driver.kernelWrite
      (List.replicate Driver.NSM_RESPONSE_MAX_SIZE 0) (encodeResponse r)
      = (encodeResponse r).take Driver.NSM_RESPONSE_MAX_SIZE := by
    simp [Driver.kernelWrite, List.drop_replicate, h0]
  have hcap : Driver.NSM_RESPONSE_MAX_SIZE = 12286 + 2 := rfl
  have hdec := decodeResponse_take_oversized r 12286 (by rw [hcap] at h; omega)
  have hstep : Driver.nsm_process_request serde_cbor
      (Driver.stubDriver fun _ => encodeResponse r) fd req
      = Driver.nsm_decode_response_from_cbor serde_cbor
          (Driver.kernelWrite (List.replicate Driver.NSM_RESPONSE_MAX_SIZE 0)
            (encodeResponse r)) := rfl
  rw [hstep, hkw, hcap]
  simp only [Driver.nsm_decode_response_from_cbor, serde_cbor, hdec,
    Except.mapError]

/-- C1: every byte sequence that is a valid encoding of a `Response`,
followed by unused zero padding up to the fixed output capacity, decodes
from the full capacity-sized region back to exactly that `Response`:
decoding treats its input as a self-delimited leading segment and
tolerates the trailing zero padding, which is what `nsm_process_request`
relies on after a successful privileged call (second conjunct). -/
theorem decode_tolerates_zero_padding (r : Api.Response) (fd : Int)
    (req : Api.Request)
    (h : (encodeResponse r).length ≤ Driver.NSM_RESPONSE_MAX_SIZE) :
    Driver.nsm_decode_response_from_cbor serde_cbor
        (encodeResponse r
          ++ List.replicate
              (Driver.NSM_RESPONSE_MAX_SIZE - (encodeResponse r).length) 0)
      = .ok r
    ∧ Driver.nsm_process_request serde_cbor
        (Driver.stubDriver fun _ => encodeResponse r) fd req = .ok r := by
  constructor
  · simp [Driver.nsm_decode_response_from_cbor, serde_cbor, Except.mapError,
      decodeResponse_encode_append]
  · exact nsm_process_request_stub r fd req h

/-- C1 witness: a concrete GetRandom response round-trips through the
padded capacity-sized region and through the full dispatch path. -/
theorem decode_tolerates_zero_padding_witness :
    (encodeResponse (Api.Response.GetRandom [7, 7])).length
        ≤ Driver.NSM_RESPONSE_MAX_SIZE
    ∧ (Driver.nsm_decode_response_from_cbor serde_cbor
          (encodeResponse (Api.Response.GetRandom [7, 7])
            ++ List.replicate
                (Driver.NSM_RESPONSE_MAX_SIZE
                  - (encodeResponse (Api.Response.GetRandom [7, 7])).length) 0)
        = .ok (Api.Response.GetRandom [7, 7])
      ∧ Driver.nsm_process_request serde_cbor
          (Driver.stubDriver fun _ =>
            encodeResponse (Api.Response.GetRandom [7, 7])) 3
          Api.Request.GetRandom = .ok (Api.Response.GetRandom [7, 7])) :=
  ⟨by decide,
   decode_tolerates_zero_padding (Api.Response.GetRandom [7, 7]) 3
     Api.Request.GetRandom (by decide)⟩

/-- C3: the ioctl wrapper succeeds exactly when the privileged call
returns the zero status, and any non-zero status yields a typed I/O error
wrapping exactly the platform error code the call left behind. -/
theorem nsm_ioctl_status (kernel : Driver.KernelModel) (fd : Int)
    (message : Driver.NsmMessage) :
    ((Driver.nsm_ioctl kernel fd message).1 = .ok ()
        ↔ (kernel fd message).status = 0)
    ∧ ((kernel fd message).status ≠ 0 →
        (Driver.nsm_ioctl kernel fd message).1
          = .error (.Io (kernel fd message).errno)) := by
  constructor
  · constructor
    · intro h
      by_contra hs
      simp [Driver.nsm_ioctl, hs] at h
    · intro h
      simp [Driver.nsm_ioctl, h]
  · intro h
    simp [Driver.nsm_ioctl, h]

/-- C3 witness: a concrete failing privileged call with platform error
code 5 yields the typed I/O error wrapping exactly 5. -/
theorem nsm_ioctl_status_witness :
    ((Driver.nsm_ioctl (Driver.failDriver 5) 3 ⟨[], []⟩).1 = .ok ()
        ↔ (Driver.failDriver 5 3 ⟨[], []⟩).status = 0)
    ∧ (Driver.nsm_ioctl (Driver.failDriver 5) 3 ⟨[], []⟩).1
        = .error (.Io (Driver.failDriver 5 3 ⟨[], []⟩).errno) :=
  ⟨(nsm_ioctl_status (Driver.failDriver 5) 3 ⟨[], []⟩).1,
   (nsm_ioctl_status (Driver.failDriver 5) 3 ⟨[], []⟩).2 (by decide)⟩

/-- C6: encoding is total over the `Request` domain — for every
well-formed request, `nsm_encode_request_to_cbor` returns the CBOR byte
vector, so the codec-failure branch is never taken. -/
theorem encode_request_total (request : Api.Request) :
    Driver.nsm_encode_request_to_cbor serde_cbor request
      = .ok (encodeRequest request) := by
  simp [Driver.nsm_encode_request_to_cbor, serde_cbor, Except.mapError]

/-- C7: decoding is total over arbitrary input byte sequences — it always
returns a verdict, and on any input that is not a valid response encoding
it returns the distinct codec (malformed-response) error rather than any
partially-populated response value. -/
theorem decode_total (bytes : List Nat) :
    (∃ r, decodeResponse bytes = some r
        ∧ Driver.nsm_decode_response_from_cbor serde_cbor bytes = .ok r)
    ∨ (decodeResponse bytes = none
        ∧ Driver.nsm_decode_response_from_cbor serde_cbor bytes
            = .error (.Cbor .malformed)) := by
  cases h : decodeResponse bytes with
  | some r =>
    exact .inl ⟨r, rfl, by
      simp [Driver.nsm_decode_response_from_cbor, serde_cbor,
        Except.mapError, h]⟩
  | none =>
    exact .inr ⟨rfl, by
      simp [Driver.nsm_decode_response_from_cbor, serde_cbor,
        Except.mapError, h]⟩

/-- C8: the output region handed to the privileged call is freshly built
for each dispatch with exactly the fixed constant capacity of 0x3000
bytes and is entirely zero-filled before the call is issued; the dispatch
is literally the privileged call on that zero-filled message followed by
decoding. -/
theorem response_region_fixed_zeroed :
    Driver.NSM_RESPONSE_MAX_SIZE = 0x3000
    ∧ (List.replicate Driver.NSM_RESPONSE_MAX_SIZE (0 : Nat)).length = 0x3000
    ∧ (∀ b ∈ List.replicate Driver.NSM_RESPONSE_MAX_SIZE (0 : Nat), b = 0)
    ∧ ∀ (codec : CborCodec) (kernel : Driver.KernelModel) (fd : Int)
        (req : Api.Request) (cbor : List Nat),
        Driver.nsm_encode_request_to_cbor codec req = .ok cbor →
        Driver.nsm_process_request codec kernel fd req
          = (match Driver.nsm_ioctl kernel fd
                ⟨cbor, List.replicate Driver.NSM_RESPONSE_MAX_SIZE 0⟩ with
             | (.error e, _) => .error e
             | (.ok _, message2) =>
               Driver.nsm_decode_response_from_cbor codec message2.response) := by
  refine ⟨rfl, by rw [List.length_replicate]; rfl, by simp, ?_⟩
  intro codec kernel fd req cbor h
  simp [Driver.nsm_process_request, h]

/-- C8 witness: the unfolding at a concrete codec, kernel and request. -/
theorem response_region_fixed_zeroed_witness :
    Driver.nsm_process_request serde_cbor (Driver.failDriver 5) 3
        Api.Request.GetRandom
      = (match Driver.nsm_ioctl (Driver.failDriver 5) 3
            ⟨[1], List.replicate Driver.NSM_RESPONSE_MAX_SIZE 0⟩ with
         | (.error e, _) => .error e
         | (.ok _, message2) =>
           Driver.nsm_decode_response_from_cbor serde_cbor message2.response) :=
  response_region_fixed_zeroed.2.2.2 serde_cbor (Driver.failDriver 5) 3
    Api.Request.GetRandom [1] rfl

/-- C9: dispatch is strictly sequenced — an encoding failure returns the
codec error with no privileged call issued (the result does not depend on
the kernel at all), and a privileged-call failure returns the I/O error
with no decoding attempted (the result does not depend on the codec's
deserializer at all). -/
theorem process_request_sequencing (codec : CborCodec)
    (kernel kernel2 : Driver.KernelModel) (fd : Int) (req : Api.Request) :
    (∀ e, codec.to_vec req = .error e →
        Driver.nsm_process_request codec kernel fd req = .error (.Cbor e)
        ∧ Driver.nsm_process_request codec kernel fd req
            = Driver.nsm_process_request codec kernel2 fd req)
    ∧ (∀ cbor, codec.to_vec req = .ok cbor →
        (kernel fd
            ⟨cbor, List.replicate Driver.NSM_RESPONSE_MAX_SIZE 0⟩).status ≠ 0 →
        Driver.nsm_process_request codec kernel fd req
          = .error (.Io (kernel fd
              ⟨cbor, List.replicate Driver.NSM_RESPONSE_MAX_SIZE 0⟩).errno)
        ∧ ∀ codec2 : CborCodec, codec2.to_vec = codec.to_vec →
            Driver.nsm_process_request codec2 kernel fd req
              = Driver.nsm_process_request codec kernel fd req) := by
  constructor
  · intro e he
    constructor <;>
      simp [Driver.nsm_process_request, Driver.nsm_encode_request_to_cbor,
        he, Except.mapError]
  · intro cbor hc hs
    constructor
    · simp [Driver.nsm_process_request, Driver.nsm_encode_request_to_cbor,
        hc, Except.mapError, Driver.nsm_ioctl, hs]
    · intro codec2 h2
      simp [Driver.nsm_process_request, Driver.nsm_encode_request_to_cbor,
        hc, h2, Except.mapError, Driver.nsm_ioctl, hs]

/-- C9 witness: with an always-failing encoder the dispatch result is the
codec error whatever the kernel; with the real encoder and a failing
privileged call the result is the I/O error whatever the deserializer. -/
theorem process_request_sequencing_witness :
    (Driver.nsm_process_request failCodec (Driver.failDriver 5) 3
          Api.Request.GetRandom = .error (.Cbor .malformed)
      ∧ Driver.nsm_process_request failCodec (Driver.failDriver 5) 3
          Api.Request.GetRandom
        = Driver.nsm_process_request failCodec
            (Driver.stubDriver fun _ => []) 3 Api.Request.GetRandom)
    ∧ (Driver.nsm_process_request serde_cbor (Driver.failDriver 7) 3
          Api.Request.GetRandom
        = .error (.Io (Driver.failDriver 7 3
            ⟨[1], List.replicate Driver.NSM_RESPONSE_MAX_SIZE 0⟩).errno)
      ∧ Driver.nsm_process_request serde_cbor (Driver.failDriver 7) 3
          Api.Request.GetRandom
        = Driver.nsm_process_request serde_cbor (Driver.failDriver 7) 3
            Api.Request.GetRandom) :=
  ⟨(process_request_sequencing failCodec (Driver.failDriver 5)
      (Driver.stubDriver fun _ => []) 3 Api.Request.GetRandom).1
      .malformed rfl,
   ⟨((process_request_sequencing serde_cbor (Driver.failDriver 7)
        (Driver.failDriver 7) 3 Api.Request.GetRandom).2 [1] rfl
        (by decide)).1,
    ((process_request_sequencing serde_cbor (Driver.failDriver 7)
        (Driver.failDriver 7) 3 Api.Request.GetRandom).2 [1] rfl
        (by decide)).2 serde_cbor rfl⟩⟩

/-- C4: whenever the driver dispatch of a GetRandom request yields a
decoded response, the facade branches exactly on its tag — the GetRandom
success tag yields the contained bytes, the module-reported error tag
with code X yields the typed module error carrying exactly X, and any
other tag yields the distinct invalid-response error. -/
theorem get_random_branches (codec : CborCodec)
    (kernel : Driver.KernelModel) (fd : Int) (r : Api.Response)
    (h : Driver.nsm_process_request codec kernel fd Api.Request.GetRandom
        = .ok r) :
    Nsm.get_random codec kernel fd
      = match r with
        | .GetRandom random => .ok random
        | .Error code => .error (.NitroSecureModuleError code)
        | .Other _ => .error .InvalidReponse := by
  cases r <;> simp [Nsm.get_random, h]

/-- C4 witness: a stub module answering the module-error tag with code 5
makes the facade fail with the typed module error carrying exactly 5. -/
theorem get_random_branches_witness :
    Driver.nsm_process_request serde_cbor
        (Driver.stubDriver fun _ => encodeResponse (Api.Response.Error 5)) 3
        Api.Request.GetRandom = .ok (Api.Response.Error 5)
    ∧ Nsm.get_random serde_cbor
        (Driver.stubDriver fun _ => encodeResponse (Api.Response.Error 5)) 3
      = .error (.NitroSecureModuleError 5) :=
  have h := nsm_process_request_stub (Api.Response.Error 5) 3
    Api.Request.GetRandom (by decide)
  ⟨h, get_random_branches serde_cbor
    (Driver.stubDriver fun _ => encodeResponse (Api.Response.Error 5)) 3
    (Api.Response.Error 5) h⟩

/-- C10: the driver-to-facade error conversion preserves the category
exactly — an I/O error maps to the facade's I/O variant with the same
payload, a codec error maps to the codec variant with the same payload,
and no driver error ever lands in the module-reported or
invalid-response variants. -/
theorem error_conversion_preserves_category :
    (∀ errno : Int, Nsm.Error.ofDriver (.Io errno) = .Io errno)
    ∧ (∀ err : CborError, Nsm.Error.ofDriver (.Cbor err) = .Cbor err)
    ∧ (∀ (e : Driver.Error) (code : Api.ErrorCode),
        Nsm.Error.ofDriver e ≠ .NitroSecureModuleError code)
    ∧ (∀ e : Driver.Error, Nsm.Error.ofDriver e ≠ .InvalidReponse) := by
  refine ⟨fun _ => rfl, fun _ => rfl, ?_, ?_⟩
  · intro e code
    cases e <;> simp [Nsm.Error.ofDriver]
  · intro e
    cases e <;> simp [Nsm.Error.ofDriver]

/-- C10 witness: the conversion at concrete driver errors. -/
theorem error_conversion_preserves_category_witness :
    Nsm.Error.ofDriver (.Io 5) = .Io 5
    ∧ Nsm.Error.ofDriver (.Cbor .malformed) = .Cbor .malformed :=
  ⟨error_conversion_preserves_category.1 5,
   error_conversion_preserves_category.2.1 .malformed⟩

/-- C5: when the facade's scope ends the owned descriptor is closed
exactly once, whatever the operation's outcome; the result being returned
is exactly the operation's own result, unchanged by the close outcome (so
a close failure is swallowed, never propagated, and never masks an error
already being propagated); and the destructor returns unit for every
close outcome. -/
theorem facade_close_exactly_once (codec : CborCodec)
    (kernel : Driver.KernelModel) (close close2 : Int → Except Int Unit)
    (fd : Int) :
    (Nsm.facadeScope codec kernel close fd).2 = [fd]
    ∧ (Nsm.facadeScope codec kernel close fd).1
        = Nsm.get_random codec kernel fd
    ∧ (Nsm.facadeScope codec kernel close fd).1
        = (Nsm.facadeScope codec kernel close2 fd).1
    ∧ Nsm.drop close fd = ((), [fd]) := by
  refine ⟨rfl, rfl, rfl, ?_⟩
  cases h : close fd <;>
    simp [Nsm.drop, Driver.nsm_exit, Nsm.unwrapOrDefault, h]

/-- C5 witness: a facade failing mid-operation with a codec error, whose
close call itself fails, still records exactly one close, still returns
the operation's own error, and the destructor still returns unit. -/
theorem facade_close_exactly_once_witness :
    (Nsm.facadeScope failCodec (Driver.failDriver 7) (failClose 9) 3).2 = [3]
    ∧ (Nsm.facadeScope failCodec (Driver.failDriver 7) (failClose 9) 3).1
        = Nsm.get_random failCodec (Driver.failDriver 7) 3
    ∧ (Nsm.facadeScope failCodec (Driver.failDriver 7) (failClose 9) 3).1
        = (Nsm.facadeScope failCodec (Driver.failDriver 7) okClose 3).1
    ∧ Nsm.drop (failClose 9) 3 = ((), [3]) :=
  facade_close_exactly_once failCodec (Driver.failDriver 7) (failClose 9)
    okClose 3

/-- C2 counterexample: a driver interaction whose response encoding
exceeds the fixed output capacity fails with exactly the ordinary
recoverable codec error (the same malformed-response condition decoding
reports on any ill-formed input), not with a failure condition distinct
from the codec and I/O conditions. -/
theorem oversized_response_counterexample :
    Driver.nsm_process_request serde_cbor
        (Driver.stubDriver fun _ =>
          encodeResponse (Api.Response.GetRandom (List.replicate 12288 1))) 3
        Api.Request.GetRandom
      = .error (.Cbor .malformed) :=
  process_oversized (Api.Response.GetRandom (List.replicate 12288 1)) 3
    Api.Request.GetRandom
    (by rw [length_encodeResponse_getRandom, List.length_replicate]; decide)

/-- C2 amended: every response whose encoding exceeds the fixed output
capacity — whatever its tag — is never silently truncated into a
successful or partially-populated value: the capacity-bounded buffer
holds only a truncated encoding, which decoding rejects, so dispatch
fails with the codec (Cbor) error; and since the driver error type has
only the I/O and codec conditions, no failure condition distinct from
both exists. -/
theorem oversized_response_fails_as_cbor (r : Api.Response) (fd : Int)
    (h : Driver.NSM_RESPONSE_MAX_SIZE < (encodeResponse r).length) :
    Driver.nsm_process_request serde_cbor
        (Driver.stubDriver fun _ => encodeResponse r) fd
        Api.Request.GetRandom
      = .error (.Cbor .malformed)
    ∧ ∀ e : Driver.Error,
        (∃ errno, e = .Io errno) ∨ (∃ c, e = .Cbor c) := by
  refine ⟨process_oversized r fd Api.Request.GetRandom h, ?_⟩
  intro e
  cases e with
  | Io errno => exact .inl ⟨errno, rfl⟩
  | Cbor c => exact .inr ⟨c, rfl⟩

/-- C2 amended witness: at the capacity boundary itself — a GetRandom
payload of 12285 bytes, whose encoding is 0x3001 bytes long, one byte
past the ceiling — dispatch fails with the codec error. -/
theorem oversized_response_fails_as_cbor_witness :
    Driver.NSM_RESPONSE_MAX_SIZE
        < (encodeResponse
            (Api.Response.GetRandom (List.replicate 12285 1))).length
    ∧ (Driver.nsm_process_request serde_cbor
          (Driver.stubDriver fun _ =>
            encodeResponse
              (Api.Response.GetRandom (List.replicate 12285 1))) 5
          Api.Request.GetRandom
        = .error (.Cbor .malformed)
      ∧ ∀ e : Driver.Error,
          (∃ errno, e = .Io errno) ∨ (∃ c, e = .Cbor c)) :=
  ⟨by rw [length_encodeResponse_getRandom, List.length_replicate]; decide,
   oversized_response_fails_as_cbor
     (Api.Response.GetRandom (List.replicate 12285 1)) 5
     (by rw [length_encodeResponse_getRandom, List.length_replicate]; decide)⟩
